import Mathlib

/-!
# Verification of the mongo-c-driver change-stream subsystem

A shallow embedding of the driver's aggregate-command builder
(`src/libmongoc/src/mongoc/mongoc-aggregate.c`) and of the change-stream
state machine.  The change-stream implementation itself
(`mongoc-change-stream.c`) is not present in the sources; only its test
suite is.  Those parts are modelled from the specification and validated
against the mock-server scripts of the test suite
(`test-mongoc-change-stream.c`, provided as `unnamed/part_000`).

BSON documents are modelled as ordered field lists; arrays as value
lists (BSON stores array indices as decimal keys, which the embedding
keeps implicit).  Doubles are restricted to integral values: no claim
exercises fractional doubles, and `bson_iter_as_int64` truncates.
-/

/-- A BSON value.  Only the variants the subsystem touches are modelled. -/
inductive BsonValue where
  | int32 (n : Int)
  | int64 (n : Int)
  /-- A double with integral value (fractional doubles never occur here). -/
  | double (n : Int)
  | string (s : String)
  | boolean (b : Bool)
  | timestamp (t i : Nat)
  | document (fields : List (String × BsonValue))
  | array (elems : List BsonValue)
  | null
deriving Repr

/-- A BSON document: an ordered list of key/value pairs. -/
abbrev Bson := List (String × BsonValue)

namespace BsonValue

/-- Macro `BSON_ITER_HOLDS_NUMBER`: int32, int64 or double. -/
def holdsNumber : BsonValue → Bool
  | int32 _ => true
  | int64 _ => true
  | double _ => true
  | _ => false

/-- Function `bson_iter_as_int64` on a numeric value (doubles are integral here). -/
def asInt64 : BsonValue → Int
  | int32 n => n
  | int64 n => n
  | double n => n
  | _ => 0

/-- Macro `BSON_ITER_HOLDS_DOCUMENT`: type tag 0x03 only (arrays are 0x04). -/
def holdsDocument : BsonValue → Bool
  | document _ => true
  | _ => false

/-- Macro `BSON_ITER_HOLDS_ARRAY`: type tag 0x04. -/
def holdsArray : BsonValue → Bool
  | array _ => true
  | _ => false

end BsonValue

/-- Function `bson_iter_init_find`: the value of the first field named `key`. -/
def bsonFind (doc : Bson) (key : String) : Option BsonValue :=
  match doc with
  | [] => none
  | (k, v) :: rest => if k = key then some v else bsonFind rest key

/-- Function `bson_has_field` restricted to top-level keys. -/
def bsonHasField (doc : Bson) (key : String) : Bool :=
  (bsonFind doc key).isSome

/-- Truncating cast to a signed 32-bit integer, as in `(int32_t) x`. -/
def toInt32 (n : Int) : Int :=
  (n + 2 ^ 31) % 2 ^ 32 - 2 ^ 31

/-! ## `_has_write_key` (mongoc-aggregate.c:40-60)

The C function walks a `bson_iter_t` over pipeline stages; for each
element that holds a document it recurses and searches that document's
keys for `"$out"` and then for `"$merge"`. -/

/-- One iteration step of `_has_write_key`: a stage contributes iff it is
a document containing a `"$out"` or `"$merge"` key. -/
def stageHasWriteKey : BsonValue → Bool
  | BsonValue.document fields =>
      fields.any (fun kv => kv.1 = "$out") || fields.any (fun kv => kv.1 = "$merge")
  | _ => false

/-- Function `_has_write_key` over the sequence of values the iterator visits. -/
def hasWriteKey (stages : List BsonValue) : Bool :=
  stages.any stageHasWriteKey

/-! ## `_make_agg_cmd` (mongoc-aggregate.c:81-140) -/

/-- The characters after the first `'.'`, when one exists. -/
def charsAfterDot : List Char → Option (List Char)
  | [] => none
  | c :: rest => if c = '.' then some rest else charsAfterDot rest

/-- The `strstr (ns, ".")` hit: the text after the first dot, when a dot exists. -/
def nsCollection (ns : String) : Option String :=
  (charsAfterDot ns.data).map fun cs => String.mk cs

/-- The `aggregate` field: collection name after the dot, else `int32 1`. -/
def aggregateField (ns : String) : BsonValue :=
  match nsCollection ns with
  | some coll => BsonValue.string coll
  | none => BsonValue.int32 1

/-- The pipeline stages `_has_write_key` scans, and the `pipeline` value the
command carries: if the input has a `"pipeline"` field holding an array the
array is used; otherwise the input document itself is reinterpreted as an
array (`BSON_APPEND_ARRAY` keeps its values in order). -/
def pipelineStages (pipeline : Bson) : List BsonValue :=
  match bsonFind pipeline "pipeline" with
  | some (BsonValue.array elems) => elems
  | _ => pipeline.map (fun kv => kv.2)

/-- The `cursor` subdocument built at mongoc-aggregate.c:128-138: empty
unless `opts` carries a numeric `batchSize`, which is cast to int32 and
dropped when it is zero and the pipeline has a `$out`/`$merge` stage. -/
def cursorSubdoc (stages : List BsonValue) (opts : Option Bson) : Bson :=
  match opts with
  | none => []
  | some o =>
    match bsonFind o "batchSize" with
    | some v =>
      if v.holdsNumber then
        let batchSize := toInt32 v.asInt64
        if hasWriteKey stages && batchSize = 0 then []
        else [("batchSize", BsonValue.int32 batchSize)]
      else []
    | none => []

/-- Function `_make_agg_cmd`.  Here `appendOk` stands for the success of
`bson_append_iter` (which fails only on document-size overflow); on
failure the C function returns `false` with a command-invalid error. -/
def makeAggCmd (ns : String) (pipeline : Bson) (opts : Option Bson)
    (appendOk : Bool) : Option Bson :=
  let pipelineIsField :=
    match bsonFind pipeline "pipeline" with
    | some (BsonValue.array _) => true
    | _ => false
  if pipelineIsField && !appendOk then
    none
  else
    let stages := pipelineStages pipeline
    some [("aggregate", aggregateField ns),
          ("pipeline", BsonValue.array stages),
          ("cursor", BsonValue.document (cursorSubdoc stages opts))]

/-! ## `_mongoc_aggregate` (mongoc-aggregate.c:183-313)

The function builds the command, creates a cursor, and then runs a chain
of checks, each of which records an error on the cursor and jumps to
`done`; `done` always returns the cursor (CDRIVER-880).  Outcomes of the
collaborator calls (`bson_append_iter`, `_mongoc_cursor_cmd_new` option
parsing, `_mongoc_get_server_id_from_opts`, `_mongoc_read_prefs_validate`,
`bson_iter_init`, `_mongoc_cursor_fetch_stream`) enter as explicit
inputs. -/

/-- Enum `mongoc_read_mode_t`. -/
inductive ReadMode where
  | primary
  | primaryPreferred
  | secondary
  | secondaryPreferred
  | nearest
deriving Repr, DecidableEq

/-- The `bson_error_t` domains used by this code path. -/
inductive ErrDomain where
  | command
  | bson
  | cursor
  | server
  | serverSelection
  | stream
deriving Repr, DecidableEq

/-- A `bson_error_t`. -/
structure DriverError where
  domain : ErrDomain
  code : Nat
  message : String
deriving Repr, DecidableEq

/-- The slice of `mongoc_cursor_t` state `_mongoc_aggregate` touches. -/
structure AggCursor where
  error : Option DriverError
  readMode : ReadMode
  /-- true when the default write concern was copied onto the cursor
  (mongoc-aggregate.c:301-305). -/
  inheritedWriteConcern : Bool
deriving Repr, DecidableEq

/-- Inputs of `_mongoc_aggregate`, with the outcomes of collaborator
calls made explicit. -/
structure AggEnv where
  ns : String
  pipeline : Bson
  opts : Option Bson
  /-- success of `bson_append_iter` inside `_make_agg_cmd`. -/
  appendPipelineOk : Bool
  /-- error `_mongoc_cursor_cmd_new` recorded while parsing `opts`. -/
  cmdNewOptsError : Option DriverError
  /-- success of `_mongoc_get_server_id_from_opts`. -/
  serverIdValid : Bool
  /-- success of `_mongoc_read_prefs_validate` on the cursor's prefs. -/
  readPrefsValid : Bool
  /-- success of `bson_iter_init` on the raw pipeline document. -/
  pipelineValidBson : Bool
  /-- read preference chosen by `_mongoc_cursor_cmd_new`:
  the user's when given, else the collection/database default. -/
  userReadMode : Option ReadMode
  defaultReadMode : ReadMode
  /-- success of `_mongoc_cursor_fetch_stream`; on failure it records an
  error on the cursor itself. -/
  fetchStreamOk : Bool
  fetchStreamError : DriverError
  maxWireVersion : Nat
deriving Repr

/-- Constant `WIRE_VERSION_CMD_WRITE_CONCERN` (servers ≥ 3.4). -/
def wireVersionCmdWriteConcern : Nat := 5

/-- Error recorded by `_make_agg_cmd` when `bson_append_iter` fails. -/
def createCmdError : DriverError :=
  { domain := ErrDomain.command, code := 22,
    message := "Failed to append \x22pipeline\x22 to create command." }

/-- The `MONGOC_ERROR_COMMAND_INVALID_ARG` error for a bad `serverId` option. -/
def serverIdError : DriverError :=
  { domain := ErrDomain.command, code := 22,
    message := "The serverId option must be an integer" }

/-- Error recorded when `_mongoc_read_prefs_validate` rejects the prefs. -/
def readPrefsError : DriverError :=
  { domain := ErrDomain.command, code := 22,
    message := "Invalid mongoc_read_prefs_t" }

/-- The `MONGOC_ERROR_BSON_INVALID` error for an uniterable pipeline. -/
def pipelineBsonError : DriverError :=
  { domain := ErrDomain.bson, code := 20,
    message := "Pipeline is invalid BSON" }

/-- The `MONGOC_ERROR_PROTOCOL_BAD_WIRE_VERSION` error for `writeConcern`
with `$out`/`$merge` on an old server. -/
def badWireVersionError : DriverError :=
  { domain := ErrDomain.command, code := 15,
    message := "aggregate with $out or $merge does not support writeConcern" }

/-- Does the pipeline argument take the `{"pipeline": [...]}` form? -/
def pipelineIsWrapped (pipeline : Bson) : Bool :=
  match bsonFind pipeline "pipeline" with
  | some (BsonValue.array _) => true
  | _ => false

/-- Function `_has_write_key` as computed at mongoc-aggregate.c:258-271 (after the
early checks), including the invalid-BSON branch for the raw form. -/
def aggHasWriteKey (env : AggEnv) : Bool :=
  hasWriteKey (pipelineStages env.pipeline)

/-- Does `cursor->opts` carry a `writeConcern` field?  `cursor->opts` is
the concatenation of the flags-derived options and `opts`;
`_mongoc_cursor_flags_to_opts` never emits `writeConcern`. -/
def aggHasWriteConcern (env : AggEnv) : Bool :=
  match env.opts with
  | some o => bsonHasField o "writeConcern"
  | none => false

/-- Function `_mongoc_aggregate`, from the cursor creation to the `done` label.
Every branch returns the cursor; failures only record `error` on it. -/
def mongocAggregate (env : AggEnv) : AggCursor :=
  let created := makeAggCmd env.ns env.pipeline env.opts env.appendPipelineOk
  let cursor : AggCursor :=
    { error := env.cmdNewOptsError,
      readMode := env.userReadMode.getD env.defaultReadMode,
      inheritedWriteConcern := false }
  if created.isNone then
    { cursor with error := some createCmdError }
  else if !env.serverIdValid then
    { cursor with error := some serverIdError }
  else if cursor.error.isSome then
    cursor
  else if !env.readPrefsValid then
    { cursor with error := some readPrefsError }
  else if !(pipelineIsWrapped env.pipeline) && !env.pipelineValidBson then
    { cursor with error := some pipelineBsonError }
  else
    let hwk := aggHasWriteKey env
    let cursor :=
      if hwk && cursor.readMode != ReadMode.primary then
        { cursor with readMode := ReadMode.primary }
      else cursor
    if !env.fetchStreamOk then
      { cursor with error := some env.fetchStreamError }
    else if aggHasWriteConcern env && hwk
            && decide (env.maxWireVersion < wireVersionCmdWriteConcern) then
      { cursor with error := some badWireVersionError }
    else if !(aggHasWriteConcern env) && hwk then
      { cursor with inheritedWriteConcern := true }
    else
      cursor

/-! ## Change-stream state machine

`mongoc-change-stream.c` is not among the sources; the definitions in
this section are modelled from the specification (§4.3-§4.5, §6-§7) and
validated against the mock-server scripts asserted by its test suite
(`unnamed/part_000`).  The server is a script: a list of replies
consumed by successive `aggregate`/`getMore` commands; `killCursors` is
best-effort, its reply ignored and therefore not scripted. -/

/-- Whether `n` occurs as a contiguous run at the head of `h`. -/
def charsLeadWith : List Char → List Char → Bool
  | [], _ => true
  | _ :: _, [] => false
  | a :: as, b :: bs => a = b && charsLeadWith as bs

/-- Whether `n` occurs as a contiguous run anywhere in `h`. -/
def charsHaveRun (n : List Char) : List Char → Bool
  | [] => n.isEmpty
  | c :: rest => charsLeadWith n (c :: rest) || charsHaveRun n rest

/-- Test `strstr (hay, needle) != NULL`. -/
def strContains (hay needle : String) : Bool :=
  charsHaveRun needle.data hay.data

/-- Modelled from the spec: the classifier outcome for a failed
`getMore` (§4.4), restricted to the protocols the tests run
(wire version ≤ 7, no error labels). -/
inductive ErrClass where
  | resumableKill
  | resumableNoKill
  | fatal
deriving Repr, DecidableEq

/-- Modelled from the spec: the non-resumable error-code denylist
(§4.4 rule 4): interrupted, capped position lost, cursor killed. -/
def nonResumableCodes : List Nat := [11601, 136, 237]

/-- Modelled from the spec: the server-state-change error codes ("not
master": 10107, 13435; "node is recovering": 11600, 11602, 13436, 189,
91).  Such an error marks the server unknown, so no `killCursors` is
attempted on resume; `test_change_stream_resumable_error` requires this
for code 10107 and documents it in `_test_getmore_error`. -/
def stateChangeCodes : List Nat := [10107, 13435, 11600, 11602, 13436, 189, 91]

/-- Modelled from the spec: recognition of a "not master" / "node is
recovering" error by code or by message substring (§4.4 rule 3). -/
def errIsStateChange (code : Option Nat) (errmsg : String) : Bool :=
  (match code with
   | some c => stateChangeCodes.contains c
   | none => false)
  || strContains errmsg "not master"
  || strContains errmsg "node is recovering"

/-- Modelled from the spec: the error classifier for a failed `getMore`
reply (§4.4 rules 3-5), with the kill-cursor axis read observationally:
a resumable error resumes without `killCursors` exactly when it marked
the server unknown (state-change error), as the test suite asserts. -/
def classifyGetmoreReply (code : Option Nat) (errmsg : String) : ErrClass :=
  match code with
  | some c =>
    if nonResumableCodes.contains c then ErrClass.fatal
    else if errIsStateChange (some c) errmsg then ErrClass.resumableNoKill
    else ErrClass.resumableKill
  | none =>
    if errIsStateChange none errmsg then ErrClass.resumableNoKill
    else ErrClass.fatal

/-- Modelled from the spec: the user options a `watch` call records
(§4.1); only the fields the resume logic reads are kept.  The driver
always sends `fullDocument` (the tests assert `'default'`). -/
structure StreamOptions where
  fullDocument : String
  resumeAfter : Option BsonValue
  startAfter : Option BsonValue
  startAtOperationTime : Option BsonValue
deriving Repr

/-- Options of a plain `watch (target, pipeline)` call: no resume options. -/
def defaultStreamOptions : StreamOptions :=
  { fullDocument := "default", resumeAfter := none, startAfter := none,
    startAtOperationTime := none }

/-- Modelled from the spec: `ResumeState` (§3). -/
structure ResumeState where
  resume_after : Option BsonValue
  start_after : Option BsonValue
  start_at_operation_time : Option BsonValue
  /-- operation time captured from the initial aggregate reply; per the
  `test_resume_cases` scripts it is recorded only when the stream was
  opened without any resume option. -/
  operation_time : Option BsonValue
  post_batch_token : Option BsonValue
  last_doc_token : Option BsonValue
deriving Repr

/-- Modelled from the spec: the selector emitted into the resumed
`$changeStream` stage (§4.5). -/
inductive Selector where
  | resumeAfter (t : BsonValue)
  | startAfter (t : BsonValue)
  | startAtOperationTime (t : BsonValue)
  | noSelector
deriving Repr

/-- Modelled from the spec: resume-selector precedence (§4.5 table).
Resume happens only with an exhausted batch buffer, so the
batch-boundary condition of row 1 reduces to the post-batch token being
set; the `test_resume_cases_with_post_batch_resume_token` scripts
require that it also beats the last returned document's token. -/
def resumeSelector (rs : ResumeState) : Selector :=
  match rs.post_batch_token with
  | some t => Selector.resumeAfter t
  | none =>
    match rs.last_doc_token with
    | some t => Selector.resumeAfter t
    | none =>
      match rs.start_after with
      | some t => Selector.resumeAfter t
      | none =>
        match rs.resume_after with
        | some t => Selector.resumeAfter t
        | none =>
          match rs.operation_time with
          | some t => Selector.startAtOperationTime t
          | none =>
            match rs.start_at_operation_time with
            | some t => Selector.startAtOperationTime t
            | none => Selector.noSelector

/-- Modelled from the spec: the `$changeStream` stage fields of a
resumed aggregate — `fullDocument` plus exactly the selected one of
`resumeAfter`/`startAfter`/`startAtOperationTime` (§4.5). -/
def resumeStageFields (fullDoc : String) (sel : Selector) : Bson :=
  ("fullDocument", BsonValue.string fullDoc) ::
  match sel with
  | Selector.resumeAfter t => [("resumeAfter", t)]
  | Selector.startAfter t => [("startAfter", t)]
  | Selector.startAtOperationTime t => [("startAtOperationTime", t)]
  | Selector.noSelector => []

/-- Modelled from the spec: the `$changeStream` stage fields of the
first open — every user-supplied resume option is forwarded verbatim,
possibly all of them (§4.5, resume table note). -/
def initialStageFields (opts : StreamOptions) : Bson :=
  ("fullDocument", BsonValue.string opts.fullDocument) ::
  ((opts.resumeAfter.map fun t => ("resumeAfter", t)).toList ++
   (opts.startAfter.map fun t => ("startAfter", t)).toList ++
   (opts.startAtOperationTime.map fun t => ("startAtOperationTime", t)).toList)

/-- A command the stream sends; `aggregate` carries its `$changeStream`
stage fields. -/
inductive WireCmd where
  | aggregate (stageFields : Bson)
  | getMore (cursorId : Nat)
  | killCursors (cursorId : Nat)
deriving Repr

/-- A scripted server reply to an `aggregate` or `getMore`. -/
inductive WireReply where
  | cursor (id : Nat) (batch : List Bson) (pbrt : Option BsonValue)
      (opTime : Option BsonValue)
  | err (code : Option Nat) (errmsg : String)
  | hangup
deriving Repr

/-- Modelled from the spec: the change-stream state (§3). -/
structure ChangeStream where
  opts : StreamOptions
  rs : ResumeState
  cursorId : Nat
  batch : List Bson
  err : Option DriverError
deriving Repr

/-- The `MONGOC_ERROR_CURSOR` / `MONGOC_ERROR_CHANGE_STREAM_NO_RESUME_TOKEN`
(the enum's numeric value is immaterial to the claims). -/
def noResumeTokenError : DriverError :=
  { domain := ErrDomain.cursor, code := 11,
    message := "Cannot provide resume functionality when the resume token is missing" }

/-- A server error surfaced under `MONGOC_ERROR_API_VERSION_2`. -/
def serverErrorOf (code : Option Nat) (errmsg : String) : DriverError :=
  { domain := ErrDomain.server, code := code.getD 0, message := errmsg }

/-- A transport hang-up error (`MONGOC_ERROR_STREAM_SOCKET`). -/
def transportError : DriverError :=
  { domain := ErrDomain.stream, code := 5, message := "socket error or timeout" }

/-- Modelled from the spec: delivering one buffered document (§4.5
next): record its document-typed `_id` as `last_doc_token`, or enter
the terminal `NoResumeToken` error state when `_id` is absent or not a
document. -/
def deliverDoc (cs : ChangeStream) (d : Bson) (rest : List Bson) :
    Option Bson × ChangeStream :=
  match bsonFind d "_id" with
  | some (BsonValue.document idFields) =>
    (some d,
     { cs with batch := rest,
               rs := { cs.rs with
                 last_doc_token := some (BsonValue.document idFields) } })
  | _ =>
    (none, { cs with batch := rest, err := some noResumeTokenError })

/-- The result of one `next` call: the document (if any), the stream
state after the call, the unconsumed script, and the commands sent. -/
structure NextOutcome where
  doc : Option Bson
  stream : ChangeStream
  rest : List WireReply
  trace : List WireCmd
deriving Repr

/-- Outcome of one `resume()` attempt: either the `next` call is over
(fatal classification, or the resuming aggregate failed), or a fresh
cursor is open and `next` is to be retried on the new state. -/
inductive ResumeStep where
  | done (out : NextOutcome)
  | retry (cs : ChangeStream) (rest : List WireReply) (lead : List WireCmd)

/-- Modelled from the spec: `resume()` (§4.5): on a fatal
classification the error sticks; otherwise a best-effort `killCursors`
(for `resumableKill` only) precedes a fresh aggregate carrying the
precedence-selected selector (the aggregate's reply refreshes the
post-batch token, §4.5 open step 3); an error or hang-up on that
aggregate is surfaced verbatim. -/
def changeStreamResumeStep (cs : ChangeStream) (cid : Nat) (cls : ErrClass)
    (e : DriverError) (srest : List WireReply) : ResumeStep :=
  match cls with
  | ErrClass.fatal =>
    ResumeStep.done ⟨none, { cs with err := some e }, srest, [WireCmd.getMore cid]⟩
  | _ =>
    let killTrace :=
      match cls with
      | ErrClass.resumableKill => [WireCmd.killCursors cid]
      | _ => []
    let stage := resumeStageFields cs.opts.fullDocument (resumeSelector cs.rs)
    let lead := WireCmd.getMore cid :: killTrace ++ [WireCmd.aggregate stage]
    match srest with
    | [] => ResumeStep.done ⟨none, cs, [], lead⟩
    | WireReply.cursor id' fb pbrt' _ :: arest =>
      let rs' :=
        match pbrt' with
        | some t => { cs.rs with post_batch_token := some t }
        | none => cs.rs
      ResumeStep.retry { cs with cursorId := id', batch := fb, rs := rs' }
        arest lead
    | WireReply.err c2 m2 :: arest =>
      ResumeStep.done
        ⟨none, { cs with err := some (serverErrorOf c2 m2) }, arest, lead⟩
    | WireReply.hangup :: arest =>
      ResumeStep.done
        ⟨none, { cs with err := some transportError }, arest, lead⟩

/-- Modelled from the spec: `next()` (§4.3, §4.5).  A buffered document
is delivered; an exhausted live cursor issues one `getMore`; a reply
that delivers a batch refreshes the post-batch token, while a
no-document return leaves the resume state unchanged (§4.5, §8
empty-poll preservation).  A resumable failure runs `resume()` and
retries; per `test_change_stream_resumable_error` a further resumable
`getMore` failure resumes again, but a failure of the resuming
aggregate itself is surfaced verbatim.  The fuel bounds the resume
recursion; an exhausted script behaves as an empty reply. -/
def changeStreamNext : Nat → ChangeStream → List WireReply → NextOutcome
  | fuel, cs, script =>
    if cs.err.isSome then ⟨none, cs, script, []⟩ else
    match cs.batch with
    | d :: rest =>
      let (doc, cs') := deliverDoc cs d rest
      ⟨doc, cs', script, []⟩
    | [] =>
      match cs.cursorId with
      | 0 => ⟨none, cs, script, []⟩
      | n + 1 =>
        let cid := n + 1
        match script with
        | [] => ⟨none, cs, [], [WireCmd.getMore cid]⟩
        | WireReply.cursor id' newBatch pbrt' _ :: srest =>
          match newBatch with
          | [] =>
            ⟨none, { cs with cursorId := id' }, srest, [WireCmd.getMore cid]⟩
          | d :: bs =>
            let rs' :=
              match pbrt' with
              | some t => { cs.rs with post_batch_token := some t }
              | none => cs.rs
            let (doc, cs') :=
              deliverDoc { cs with cursorId := id', rs := rs' } d bs
            ⟨doc, cs', srest, [WireCmd.getMore cid]⟩
        | WireReply.err code msg :: srest =>
          match changeStreamResumeStep cs cid (classifyGetmoreReply code msg)
              (serverErrorOf code msg) srest with
          | ResumeStep.done out => out
          | ResumeStep.retry cs' rest' lead =>
            match fuel with
            | 0 => ⟨none, cs', rest', lead⟩
            | f + 1 =>
              let out := changeStreamNext f cs' rest'
              ⟨out.doc, out.stream, out.rest, lead ++ out.trace⟩
        | WireReply.hangup :: srest =>
          match changeStreamResumeStep cs cid ErrClass.resumableNoKill
              transportError srest with
          | ResumeStep.done out => out
          | ResumeStep.retry cs' rest' lead =>
            match fuel with
            | 0 => ⟨none, cs', rest', lead⟩
            | f + 1 =>
              let out := changeStreamNext f cs' rest'
              ⟨out.doc, out.stream, out.rest, lead ++ out.trace⟩

/-- Modelled from the spec: `next()` with resuming disabled, used for
the retried `next` of the literal single-resume wording: any failure of
the retried call is surfaced verbatim, even a resumable one. -/
def changeStreamNextNoResume (cs : ChangeStream) (script : List WireReply) :
    NextOutcome :=
  if cs.err.isSome then ⟨none, cs, script, []⟩ else
  match cs.batch with
  | d :: rest =>
    let (doc, cs') := deliverDoc cs d rest
    ⟨doc, cs', script, []⟩
  | [] =>
    match cs.cursorId with
    | 0 => ⟨none, cs, script, []⟩
    | n + 1 =>
      let cid := n + 1
      match script with
      | [] => ⟨none, cs, [], [WireCmd.getMore cid]⟩
      | WireReply.cursor id' newBatch pbrt' _ :: srest =>
        match newBatch with
        | [] =>
          ⟨none, { cs with cursorId := id' }, srest, [WireCmd.getMore cid]⟩
        | d :: bs =>
          let rs' :=
            match pbrt' with
            | some t => { cs.rs with post_batch_token := some t }
            | none => cs.rs
          let (doc, cs') :=
            deliverDoc { cs with cursorId := id', rs := rs' } d bs
          ⟨doc, cs', srest, [WireCmd.getMore cid]⟩
      | WireReply.err code msg :: srest =>
        ⟨none, { cs with err := some (serverErrorOf code msg) }, srest,
         [WireCmd.getMore cid]⟩
      | WireReply.hangup :: srest =>
        ⟨none, { cs with err := some transportError }, srest,
         [WireCmd.getMore cid]⟩

/-- Modelled from the spec: `next()` as the single-resume sentences
state it (§4.5 next, §8): a resumable error triggers exactly one
`resume()` and one retried `next`; if the retried `next` also fails,
that second error is surfaced verbatim, even if itself resumable. -/
def changeStreamNextSingle (cs : ChangeStream) (script : List WireReply) :
    NextOutcome :=
  if cs.err.isSome then ⟨none, cs, script, []⟩ else
  match cs.batch with
  | d :: rest =>
    let (doc, cs') := deliverDoc cs d rest
    ⟨doc, cs', script, []⟩
  | [] =>
    match cs.cursorId with
    | 0 => ⟨none, cs, script, []⟩
    | n + 1 =>
      let cid := n + 1
      match script with
      | [] => ⟨none, cs, [], [WireCmd.getMore cid]⟩
      | WireReply.cursor id' newBatch pbrt' _ :: srest =>
        match newBatch with
        | [] =>
          ⟨none, { cs with cursorId := id' }, srest, [WireCmd.getMore cid]⟩
        | d :: bs =>
          let rs' :=
            match pbrt' with
            | some t => { cs.rs with post_batch_token := some t }
            | none => cs.rs
          let (doc, cs') :=
            deliverDoc { cs with cursorId := id', rs := rs' } d bs
          ⟨doc, cs', srest, [WireCmd.getMore cid]⟩
      | WireReply.err code msg :: srest =>
        match changeStreamResumeStep cs cid (classifyGetmoreReply code msg)
            (serverErrorOf code msg) srest with
        | ResumeStep.done out => out
        | ResumeStep.retry cs' rest' lead =>
          let out := changeStreamNextNoResume cs' rest'
          ⟨out.doc, out.stream, out.rest, lead ++ out.trace⟩
      | WireReply.hangup :: srest =>
        match changeStreamResumeStep cs cid ErrClass.resumableNoKill
            transportError srest with
        | ResumeStep.done out => out
        | ResumeStep.retry cs' rest' lead =>
          let out := changeStreamNextNoResume cs' rest'
          ⟨out.doc, out.stream, out.rest, lead ++ out.trace⟩

/-- The `ResumeState` of a stream opened with no resume options, before
any reply has been recorded. -/
def emptyResumeState : ResumeState :=
  { resume_after := none, start_after := none, start_at_operation_time := none,
    operation_time := none, post_batch_token := none, last_doc_token := none }

/-- Modelled from the spec: `open()` (§4.5): the initial aggregate
carries the option-sourced stage; on success the reply's cursor id and
first batch are adopted and its `postBatchResumeToken` recorded; its
`operationTime` is recorded for a stream opened without resume options
(the `test_resume_cases` scripts show a user `startAtOperationTime` is
not overridden by the reply).  On failure the error is sticky — no
resume is attempted on the very first open. -/
def changeStreamOpen (opts : StreamOptions) (reply : WireReply) :
    ChangeStream × List WireCmd :=
  let trace := [WireCmd.aggregate (initialStageFields opts)]
  let rs0 : ResumeState :=
    { resume_after := opts.resumeAfter, start_after := opts.startAfter,
      start_at_operation_time := opts.startAtOperationTime,
      operation_time := none, post_batch_token := none, last_doc_token := none }
  match reply with
  | WireReply.cursor id batch pbrt ot =>
    let noResumeOpts := opts.resumeAfter.isNone && opts.startAfter.isNone &&
      opts.startAtOperationTime.isNone
    ({ opts := opts,
       rs := { rs0 with
         operation_time := if noResumeOpts then ot else none,
         post_batch_token := pbrt },
       cursorId := id, batch := batch, err := none }, trace)
  | WireReply.err c m =>
    ({ opts := opts, rs := rs0, cursorId := 0, batch := [],
       err := some (serverErrorOf c m) }, trace)
  | WireReply.hangup =>
    ({ opts := opts, rs := rs0, cursorId := 0, batch := [],
       err := some transportError }, trace)

/-- Modelled from the spec: the `get_resume_token` accessor (§6): the
current best resume token by the §4.5 precedence — the post-batch token
at a batch boundary, else the last delivered document's token, else the
user-supplied `startAfter`/`resumeAfter` token. -/
def getResumeToken (cs : ChangeStream) : Option BsonValue :=
  match (if cs.batch.isEmpty then cs.rs.post_batch_token else none) with
  | some t => some t
  | none =>
    match cs.rs.last_doc_token with
    | some t => some t
    | none =>
      match cs.rs.start_after with
      | some t => some t
      | none => cs.rs.resume_after

/-- The `{ $changeStream: { ... } }` pipeline stage. -/
def csStage (fields : Bson) : BsonValue :=
  BsonValue.document [("$changeStream", BsonValue.document fields)]

/-- Modelled from the spec: the watch command builder (§4.2): the
`$changeStream` stage prepended to the user stages — extracted from
either accepted pipeline form, mirroring the form handling of
`_make_agg_cmd` — then assembled by the aggregate command builder. -/
def watchAggCmd (ns : String) (opts : StreamOptions) (userPipeline : Bson)
    (aggOpts : Option Bson) : Option Bson :=
  makeAggCmd ns
    [("pipeline", BsonValue.array
      (csStage (initialStageFields opts) :: pipelineStages userPipeline))]
    aggOpts true

/-- Number of `aggregate` commands in a trace — each one past the first
open is a resume attempt. -/
def aggregateCount : List WireCmd → Nat
  | [] => 0
  | WireCmd.aggregate _ :: r => aggregateCount r + 1
  | _ :: r => aggregateCount r

/-- Whether a trace contains a `killCursors` command. -/
def traceHasKill : List WireCmd → Bool
  | [] => false
  | WireCmd.killCursors _ :: _ => true
  | _ :: r => traceHasKill r

/-! ### The double-not-master scenario of `test_change_stream_resumable_error`
(part_000 lines 766-817): an option-free stream holding cursor 124 with
nothing buffered; one `next` call; the mock server replies `not master`
(code 10107) to the getMore, opens cursor 125 for the resuming
aggregate, replies `not master` to the next getMore, opens cursor 126,
then replies `interrupted` (code 11601). -/

/-- The stream state entering the scenario: cursor 124, empty buffer,
no resume data. -/
def resumableTestStream : ChangeStream :=
  { opts := defaultStreamOptions, rs := emptyResumeState,
    cursorId := 124, batch := [], err := none }

/-- Reply `{ 'code': 10107, 'errmsg': 'not master', 'ok': 0 }`. -/
def notMasterReply : WireReply := WireReply.err (some 10107) "not master"

/-- Reply `{ 'code': 11601, 'errmsg': 'interrupted', 'ok': 0 }`. -/
def interruptedReply : WireReply := WireReply.err (some 11601) "interrupted"

/-- The scripted replies of the scenario. -/
def resumableTestScript : List WireReply :=
  [notMasterReply, WireReply.cursor 125 [] none none,
   notMasterReply, WireReply.cursor 126 [] none none,
   interruptedReply]

/-- The command sequence the mock server asserts for the scenario: the
`watch_cmd` aggregate (stage `{ fullDocument: 'default' }`) is received
twice, with no `killCursors` in between. -/
def resumableTestCmds : List WireCmd :=
  [WireCmd.getMore 124,
   WireCmd.aggregate [("fullDocument", BsonValue.string "default")],
   WireCmd.getMore 125,
   WireCmd.aggregate [("fullDocument", BsonValue.string "default")],
   WireCmd.getMore 126]

/-! ### Scenario states for the `_test_resume` scripts -/

/-- Options of a `_test_resume` run with both `resumeAfter` and
`startAtOperationTime` supplied. -/
def pbrtTestOptions (ra ot : BsonValue) : StreamOptions :=
  { fullDocument := "default", resumeAfter := some ra, startAfter := none,
    startAtOperationTime := some ot }

/-- The stream of a `_test_resume` run whose initial aggregate reply
carries cursor 123, an empty first batch, `postBatchResumeToken = pbr`
and `operationTime = aggOt`, opened with `resumeAfter = ra` and
`startAtOperationTime = ot`. -/
def pbrtTestStream (pbr ra ot aggOt : BsonValue) : ChangeStream :=
  (changeStreamOpen (pbrtTestOptions ra ot)
    (WireReply.cursor 123 [] (some pbr) (some aggOt))).1

/-- Options of a `_test_resume` run with only `startAfter` supplied. -/
def startAfterTestOptions (sa : BsonValue) : StreamOptions :=
  { fullDocument := "default", resumeAfter := none, startAfter := some sa,
    startAtOperationTime := none }

/-- The stream of a `_test_resume` run opened with `startAfter = sa`
whose initial reply carries cursor 123, an empty first batch, no
post-batch token and `operationTime = aggOt`. -/
def startAfterTestStream (sa aggOt : BsonValue) : ChangeStream :=
  (changeStreamOpen (startAfterTestOptions sa)
    (WireReply.cursor 123 [] none (some aggOt))).1

/-- The `_test_resume` continuation script: the getMore hangs up, and
the resuming aggregate is answered with a dead cursor (id 0) and an
empty batch, ending the `next` call without a further getMore. -/
def hangupThenDeadCursor : List WireReply :=
  [WireReply.hangup, WireReply.cursor 0 [] none none]

/-! ### Stages of `test_change_stream_accepts_array` -/

/-- Stage `{ '$match': { 'x': 1 } }`. -/
def matchStage : BsonValue :=
  BsonValue.document [("$match", BsonValue.document [("x", BsonValue.int32 1)])]

/-- Stage `{ '$project': { 'x': 1 } }`. -/
def projectStage : BsonValue :=
  BsonValue.document [("$project", BsonValue.document [("x", BsonValue.int32 1)])]

/-- The disjunction of the failure conditions of `_mongoc_aggregate`:
command construction fails, the `serverId` option is invalid, `opts`
parsing failed in `_mongoc_cursor_cmd_new`, the read preferences are
invalid, the raw pipeline is invalid BSON, the server stream cannot be
fetched, or `writeConcern` is combined with `$out`/`$merge` on an old
wire version. -/
def aggFails (env : AggEnv) : Bool :=
  (makeAggCmd env.ns env.pipeline env.opts env.appendPipelineOk).isNone
  || !env.serverIdValid
  || env.cmdNewOptsError.isSome
  || !env.readPrefsValid
  || (!(pipelineIsWrapped env.pipeline) && !env.pipelineValidBson)
  || !env.fetchStreamOk
  || (aggHasWriteConcern env && aggHasWriteKey env
      && decide (env.maxWireVersion < wireVersionCmdWriteConcern))

/-- Claim C10. `_mongoc_aggregate` always returns a cursor — the embedding
is a total function into `AggCursor`, mirroring the C function's single
`RETURN (cursor)` at the `done` label — and an error is recorded on the
returned cursor exactly when one of the failure conditions holds:
command construction failed, the `serverId` option is invalid, option
parsing failed, the read preferences are invalid, the pipeline is
invalid BSON, the server stream could not be fetched, or `writeConcern`
is combined with a `$out`/`$merge` stage on a pre-3.4 wire version.
Failure is never signalled by the absence of a cursor. -/
theorem mongocAggregate_total_error_iff (env : AggEnv) :
    (mongocAggregate env).error.isSome = aggFails env := by
  unfold mongocAggregate aggFails
  cases hc : (makeAggCmd env.ns env.pipeline env.opts env.appendPipelineOk).isNone
  case true => simp [hc]
  case false =>
  cases hs : env.serverIdValid
  case false => simp [hc, hs]
  case true =>
  cases he : env.cmdNewOptsError
  case some e => simp [hc, hs, he]
  case none =>
  cases hr : env.readPrefsValid
  case false => simp [hc, hs, he, hr]
  case true =>
  cases hpv : (!(pipelineIsWrapped env.pipeline) && !env.pipelineValidBson)
  case true => simp [hc, hs, he, hr, hpv]
  case false =>
  cases hf : env.fetchStreamOk
  case false => simp [hc, hs, he, hr, hpv, hf]
  case true =>
  cases ha : (aggHasWriteConcern env && aggHasWriteKey env
      && decide (env.maxWireVersion < wireVersionCmdWriteConcern)) <;>
  cases hb : (!(aggHasWriteConcern env) && aggHasWriteKey env) <;>
    simp [hc, hs, he, hr, hpv, hf, ha, hb, apply_ite AggCursor.error]

/-- When `bson_append_iter` succeeds, `_make_agg_cmd` builds the
three-field command `aggregate`/`pipeline`/`cursor`. -/
theorem makeAggCmd_build (ns : String) (pipeline : Bson) (opts : Option Bson) :
    makeAggCmd ns pipeline opts true =
      some [("aggregate", aggregateField ns),
            ("pipeline", BsonValue.array (pipelineStages pipeline)),
            ("cursor", BsonValue.document (cursorSubdoc (pipelineStages pipeline) opts))] := by
  unfold makeAggCmd
  simp

/-- Claim C9. Every command built by `_make_agg_cmd` contains a `cursor`
subdocument; when the options carry a numeric `batchSize`, its value is
copied into that subdocument as the 32-bit integer `cursor.batchSize`,
except that a batch size whose int32 cast is zero is silently dropped
when some pipeline stage carries a `$out` or `$merge` key. -/
theorem makeAggCmd_cursor_batchSize :
    (∀ (ns : String) (pipeline : Bson) (opts : Option Bson),
      ∃ sub : Bson,
        bsonFind ((makeAggCmd ns pipeline opts true).getD []) "cursor"
          = some (BsonValue.document sub)) ∧
    (∀ (ns : String) (pipeline : Bson) (opts : Bson) (v : BsonValue) (sub : Bson),
      bsonFind ((makeAggCmd ns pipeline (some opts) true).getD []) "cursor"
        = some (BsonValue.document sub) →
      bsonFind opts "batchSize" = some v →
      v.holdsNumber = true →
      ((hasWriteKey (pipelineStages pipeline) = true ∧ toInt32 v.asInt64 = 0) →
        sub = []) ∧
      (¬(hasWriteKey (pipelineStages pipeline) = true ∧ toInt32 v.asInt64 = 0) →
        sub = [("batchSize", BsonValue.int32 (toInt32 v.asInt64))])) := by
  constructor
  · intro ns pipeline opts
    refine ⟨cursorSubdoc (pipelineStages pipeline) opts, ?_⟩
    rw [makeAggCmd_build]
    simp [bsonFind]
  · intro ns pipeline opts v sub hfind hbs hnum
    rw [makeAggCmd_build] at hfind
    simp [bsonFind] at hfind
    subst hfind
    simp only [cursorSubdoc, hbs, hnum, if_true]
    constructor
    · rintro ⟨hk, hz⟩
      simp [hk, hz]
    · intro hn
      by_cases hk : hasWriteKey (pipelineStages pipeline) = true
      · have hz : ¬ (toInt32 v.asInt64 = 0) := fun hz => hn ⟨hk, hz⟩
        simp [hk, hz]
      · simp only [Bool.not_eq_true] at hk
        simp [hk]

/-- Witness for C9: with pipeline `[{ $out: "c" }]` and `batchSize 0` the
subdocument is empty; with an empty pipeline and `batchSize 5` it holds
`batchSize: int32 5`. -/
theorem makeAggCmd_cursor_batchSize_witness :
    ([] : Bson) = [] ∧
    ([("batchSize", BsonValue.int32 5)] : Bson)
      = [("batchSize", BsonValue.int32 5)] :=
  ⟨(makeAggCmd_cursor_batchSize.2 "db.coll"
      [("0", BsonValue.document [("$out", BsonValue.string "c")])]
      [("batchSize", BsonValue.int32 0)] (BsonValue.int32 0) []
      rfl rfl rfl).1 ⟨rfl, rfl⟩,
   (makeAggCmd_cursor_batchSize.2 "db.coll" []
      [("batchSize", BsonValue.int32 5)] (BsonValue.int32 5)
      [("batchSize", BsonValue.int32 5)]
      rfl rfl rfl).2 (by decide)⟩


/-- Claim C1. On resume, a captured post-batch resume token takes
precedence over everything: for any resume state holding a post-batch
token — whatever the last returned document's token, the user's
`resume_after`/`start_after` options or any operation time — the
selector is `resumeAfter = post_batch_token`; and end-to-end, a stream
opened with `resume_after` and `start_at_operation_time` options whose
initial aggregate reply carried `cursor.postBatchResumeToken`, from
which no document was iterated, resumes after a `getMore` hang-up with
a `$changeStream` stage whose `resumeAfter` is exactly that post-batch
token, with no `startAfter` and no `startAtOperationTime`. -/
theorem postBatchToken_priority :
    (∀ (ra sa ot opt ldt : Option BsonValue) (pbr : BsonValue),
      resumeSelector
        { resume_after := ra, start_after := sa,
          start_at_operation_time := ot, operation_time := opt,
          post_batch_token := some pbr, last_doc_token := ldt }
        = Selector.resumeAfter pbr) ∧
    (∀ (pbr ra ot aggOt : BsonValue),
      (changeStreamNext 1 (pbrtTestStream pbr ra ot aggOt)
          hangupThenDeadCursor).trace
        = [WireCmd.getMore 123,
           WireCmd.aggregate
             [("fullDocument", BsonValue.string "default"),
              ("resumeAfter", pbr)]] ∧
      (changeStreamNext 1 (pbrtTestStream pbr ra ot aggOt)
          hangupThenDeadCursor).doc = none ∧
      (changeStreamNext 1 (pbrtTestStream pbr ra ot aggOt)
          hangupThenDeadCursor).stream.err = none) :=
  ⟨fun _ _ _ _ _ _ => rfl, fun _ _ _ _ => ⟨rfl, rfl, rfl⟩⟩

/-- Claim C5. For a stream opened with the `start_after` option from which
no document has ever been returned: the initial `$changeStream` stage
carries `startAfter` with the user's value (and neither `resumeAfter`
nor `startAtOperationTime`); on resume with no post-batch token
available, the rebuilt stage instead carries `resumeAfter` set to that
same value, with `startAfter` and `startAtOperationTime` absent. -/
theorem startAfter_rewritten_on_resume :
    (∀ sa : BsonValue,
      initialStageFields (startAfterTestOptions sa)
        = [("fullDocument", BsonValue.string "default"), ("startAfter", sa)]) ∧
    (∀ (sa aggOt : BsonValue),
      (changeStreamNext 1 (startAfterTestStream sa aggOt)
          hangupThenDeadCursor).trace
        = [WireCmd.getMore 123,
           WireCmd.aggregate
             [("fullDocument", BsonValue.string "default"),
              ("resumeAfter", sa)]] ∧
      (changeStreamNext 1 (startAfterTestStream sa aggOt)
          hangupThenDeadCursor).doc = none ∧
      (changeStreamNext 1 (startAfterTestStream sa aggOt)
          hangupThenDeadCursor).stream.err = none) :=
  ⟨fun _ => rfl, fun _ _ => ⟨rfl, rfl, rfl⟩⟩

/-- Claim C2, counterexample. On the double-not-master run that
`test_change_stream_resumable_error` scripts inside one `next` call,
the code's behavior — fixed by the mock server's asserted command
sequence and final error — performs two resume aggregates and surfaces
the third error (`interrupted`, 11601); the single-resume `next` the
claim describes would stop after one resume and surface the second
`not master` error (10107), which the test forbids. -/
theorem changeStreamNext_double_resume_counterexample :
    (changeStreamNext 5 resumableTestStream resumableTestScript).trace
        = resumableTestCmds ∧
    (changeStreamNext 5 resumableTestStream resumableTestScript).stream.err
        = some (serverErrorOf (some 11601) "interrupted") ∧
    aggregateCount resumableTestCmds = 2 ∧
    decide (aggregateCount
        (changeStreamNext 5 resumableTestStream resumableTestScript).trace ≤ 1)
      = false ∧
    (changeStreamNextSingle resumableTestStream resumableTestScript).stream.err
        = some (serverErrorOf (some 10107) "not master") ∧
    decide (serverErrorOf (some 10107) "not master"
        = serverErrorOf (some 11601) "interrupted") = false :=
  ⟨rfl, rfl, rfl, rfl, rfl, rfl⟩

/-- Claim C2, amended. A `next` observing a resumable `getMore` error
resumes and retries, but the resume budget is per resumable error, not
per `next` call: a further resumable `getMore` error after the resume
triggers another resume within the same call (the double-not-master run
performs two resumes and surfaces the final non-resumable error);
what ends the call with the error surfaced verbatim — after exactly one
resume aggregate — is a failure of the resuming aggregate itself. -/
theorem changeStreamNext_resume_per_error :
    (∀ (fuel : Nat) (cs : ChangeStream) (n : Nat) (code : Option Nat)
       (msg : String) (c2 : Option Nat) (m2 : String) (rest : List WireReply),
      cs.err = none → cs.batch = [] → cs.cursorId = n + 1 →
      classifyGetmoreReply code msg ≠ ErrClass.fatal →
      (changeStreamNext fuel cs
          (WireReply.err code msg :: WireReply.err c2 m2 :: rest)).stream.err
        = some (serverErrorOf c2 m2) ∧
      (changeStreamNext fuel cs
          (WireReply.err code msg :: WireReply.err c2 m2 :: rest)).doc = none ∧
      aggregateCount (changeStreamNext fuel cs
          (WireReply.err code msg :: WireReply.err c2 m2 :: rest)).trace = 1) ∧
    aggregateCount
        (changeStreamNext 5 resumableTestStream resumableTestScript).trace = 2 ∧
    (changeStreamNext 5 resumableTestStream resumableTestScript).doc = none ∧
    (changeStreamNext 5 resumableTestStream resumableTestScript).stream.err
        = some (serverErrorOf (some 11601) "interrupted") := by
  refine ⟨?_, rfl, rfl, rfl⟩
  intro fuel cs n code msg c2 m2 rest herr hbatch hcid hcls
  cases hc : classifyGetmoreReply code msg with
  | fatal => exact absurd hc hcls
  | resumableKill =>
    refine ⟨?_, ?_, ?_⟩ <;>
      simp [changeStreamNext, herr, hbatch, hcid, changeStreamResumeStep, hc,
        aggregateCount]
  | resumableNoKill =>
    refine ⟨?_, ?_, ?_⟩ <;>
      simp [changeStreamNext, herr, hbatch, hcid, changeStreamResumeStep, hc,
        aggregateCount]

/-- Witness for the C2 theorem at the final scenario of
`test_change_stream_resumable_error`: a `not master` getMore failure on
cursor 124 whose resuming aggregate is answered `{code: 123, errmsg:
'bad cmd'}`; that error is surfaced verbatim after one resume. -/
theorem changeStreamNext_resume_per_error_witness :
    (changeStreamNext 1 resumableTestStream
        [WireReply.err (some 10107) "not master",
         WireReply.err (some 123) "bad cmd"]).stream.err
      = some (serverErrorOf (some 123) "bad cmd") ∧
    (changeStreamNext 1 resumableTestStream
        [WireReply.err (some 10107) "not master",
         WireReply.err (some 123) "bad cmd"]).doc = none ∧
    aggregateCount (changeStreamNext 1 resumableTestStream
        [WireReply.err (some 10107) "not master",
         WireReply.err (some 123) "bad cmd"]).trace = 1 :=
  changeStreamNext_resume_per_error.1 1 resumableTestStream 123 (some 10107)
    "not master" (some 123) "bad cmd" [] rfl rfl rfl (by decide)

/-- Claim C3, counterexample. The reply `{code: 10107, errmsg: 'not
master'}` carries a non-zero code outside the denylist, so the claim
makes it resumable-kill-cursor; but 10107 is a server-state-change
("not master") code, and the stream resumes it WITHOUT `killCursors` —
`test_change_stream_resumable_error`'s mock receives the resuming
aggregate immediately after the failed getMore.  The classifier's
outcome is resumable-no-kill, not resumable-kill-cursor. -/
theorem classify_code10107_counterexample :
    classifyGetmoreReply (some 10107) "not master" = ErrClass.resumableNoKill ∧
    decide ((ErrClass.resumableNoKill : ErrClass) = ErrClass.resumableKill)
      = false ∧
    nonResumableCodes.contains 10107 = false ∧
    traceHasKill (changeStreamNext 1 resumableTestStream
        [notMasterReply, WireReply.cursor 125 [] none none]).trace = false ∧
    aggregateCount (changeStreamNext 1 resumableTestStream
        [notMasterReply, WireReply.cursor 125 [] none none]).trace = 1 :=
  ⟨rfl, rfl, rfl, rfl, rfl⟩

/-- Claim C3, amended. The classifier for a failed getMore reply yields:
resumable-no-kill when the reply has no numeric code but its errmsg
contains "not master" or "node is recovering"; fatal for the denylist
codes {11601, 136, 237}; fatal for a no-code reply containing neither
substring; and resumable for every other non-zero code — with
killCursors (resumable-kill-cursor) unless the error is recognized as a
server-state-change error (a "not master"/"node is recovering" code
such as 10107, or a matching errmsg), which resumes without killCursors
(resumable-no-kill).  The nine replies `test_getmore_errors` scripts
classify accordingly. -/
theorem classifyGetmoreReply_table :
    (∀ msg : String,
      (strContains msg "not master" || strContains msg "node is recovering")
          = true →
      classifyGetmoreReply none msg = ErrClass.resumableNoKill) ∧
    (∀ msg : String,
      (strContains msg "not master" || strContains msg "node is recovering")
          = false →
      classifyGetmoreReply none msg = ErrClass.fatal) ∧
    (∀ (c : Nat) (msg : String), nonResumableCodes.contains c = true →
      classifyGetmoreReply (some c) msg = ErrClass.fatal) ∧
    (∀ (c : Nat) (msg : String), nonResumableCodes.contains c = false →
      errIsStateChange (some c) msg = true →
      classifyGetmoreReply (some c) msg = ErrClass.resumableNoKill) ∧
    (∀ (c : Nat) (msg : String), nonResumableCodes.contains c = false →
      errIsStateChange (some c) msg = false →
      classifyGetmoreReply (some c) msg = ErrClass.resumableKill) ∧
    (classifyGetmoreReply (some 1) "internal error" = ErrClass.resumableKill ∧
     classifyGetmoreReply (some 6) "host unreachable" = ErrClass.resumableKill ∧
     classifyGetmoreReply (some 12345) "random error" = ErrClass.resumableKill ∧
     classifyGetmoreReply (some 11601) "interrupted" = ErrClass.fatal ∧
     classifyGetmoreReply (some 136) "capped position lost" = ErrClass.fatal ∧
     classifyGetmoreReply (some 237) "cursor killed" = ErrClass.fatal ∧
     classifyGetmoreReply none "not master" = ErrClass.resumableNoKill ∧
     classifyGetmoreReply none "node is recovering" = ErrClass.resumableNoKill ∧
     classifyGetmoreReply none "random error" = ErrClass.fatal) := by
  refine ⟨?_, ?_, ?_, ?_, ?_,
    rfl, rfl, rfl, rfl, rfl, rfl, rfl, rfl, rfl⟩
  · intro msg h
    simp [classifyGetmoreReply, errIsStateChange] at h ⊢
    rcases h with h | h <;> simp [h]
  · intro msg h
    simp [classifyGetmoreReply, errIsStateChange] at h ⊢
    simp [h.1, h.2]
  · intro c msg h
    have h' : c ∈ nonResumableCodes := by simpa using h
    simp [classifyGetmoreReply, h']
  · intro c msg h1 h2
    have h' : c ∉ nonResumableCodes := by simpa using h1
    simp [classifyGetmoreReply, h', h2]
  · intro c msg h1 h2
    have h' : c ∉ nonResumableCodes := by simpa using h1
    simp [classifyGetmoreReply, h', h2]

/-- Witness for the C3 theorem: code 12345, message "random error" —
no denylist hit, no state-change recognition — is resumable-kill-cursor. -/
theorem classifyGetmoreReply_table_witness :
    classifyGetmoreReply (some 12345) "random error" = ErrClass.resumableKill :=
  classifyGetmoreReply_table.2.2.2.2.1 12345 "random error" (by decide) (by decide)

/-- Claim C4. Whenever a resume follows a getMore failure classified
resumable-kill-cursor, a best-effort `killCursors` for the dead cursor
is sent after the failing getMore and before the resuming aggregate
(the model never consumes a scripted reply for it: its result and
errors are ignored by construction); whenever the failure is classified
resumable-no-kill — including a transport hang-up during getMore — the
resuming aggregate is sent with no `killCursors` before it. -/
theorem resume_killCursors_matches_class :
    (∀ (fuel : Nat) (cs : ChangeStream) (n : Nat) (code : Option Nat)
       (msg : String) (srest : List WireReply),
      cs.err = none → cs.batch = [] → cs.cursorId = n + 1 →
      classifyGetmoreReply code msg = ErrClass.resumableKill →
      ((changeStreamNext fuel cs (WireReply.err code msg :: srest)).trace).take 3
        = [WireCmd.getMore (n + 1), WireCmd.killCursors (n + 1),
           WireCmd.aggregate
             (resumeStageFields cs.opts.fullDocument (resumeSelector cs.rs))]) ∧
    (∀ (fuel : Nat) (cs : ChangeStream) (n : Nat) (code : Option Nat)
       (msg : String) (srest : List WireReply),
      cs.err = none → cs.batch = [] → cs.cursorId = n + 1 →
      classifyGetmoreReply code msg = ErrClass.resumableNoKill →
      ((changeStreamNext fuel cs (WireReply.err code msg :: srest)).trace).take 2
        = [WireCmd.getMore (n + 1),
           WireCmd.aggregate
             (resumeStageFields cs.opts.fullDocument (resumeSelector cs.rs))]) ∧
    (∀ (fuel : Nat) (cs : ChangeStream) (n : Nat) (srest : List WireReply),
      cs.err = none → cs.batch = [] → cs.cursorId = n + 1 →
      ((changeStreamNext fuel cs (WireReply.hangup :: srest)).trace).take 2
        = [WireCmd.getMore (n + 1),
           WireCmd.aggregate
             (resumeStageFields cs.opts.fullDocument (resumeSelector cs.rs))]) := by
  refine ⟨?_, ?_, ?_⟩
  · intro fuel cs n code msg srest herr hbatch hcid hc
    cases srest with
    | nil =>
      simp [changeStreamNext, herr, hbatch, hcid, changeStreamResumeStep, hc]
    | cons r rs =>
      cases r with
      | cursor id' fb pbrt' ot' =>
        cases fuel with
        | zero =>
          simp [changeStreamNext, herr, hbatch, hcid, changeStreamResumeStep, hc]
        | succ f =>
          rw [changeStreamNext.eq_def]
          simp [herr, hbatch, hcid, changeStreamResumeStep, hc]
      | err c2 m2 =>
        simp [changeStreamNext, herr, hbatch, hcid, changeStreamResumeStep, hc]
      | hangup =>
        simp [changeStreamNext, herr, hbatch, hcid, changeStreamResumeStep, hc]
  · intro fuel cs n code msg srest herr hbatch hcid hc
    cases srest with
    | nil =>
      simp [changeStreamNext, herr, hbatch, hcid, changeStreamResumeStep, hc]
    | cons r rs =>
      cases r with
      | cursor id' fb pbrt' ot' =>
        cases fuel with
        | zero =>
          simp [changeStreamNext, herr, hbatch, hcid, changeStreamResumeStep, hc]
        | succ f =>
          rw [changeStreamNext.eq_def]
          simp [herr, hbatch, hcid, changeStreamResumeStep, hc]
      | err c2 m2 =>
        simp [changeStreamNext, herr, hbatch, hcid, changeStreamResumeStep, hc]
      | hangup =>
        simp [changeStreamNext, herr, hbatch, hcid, changeStreamResumeStep, hc]
  · intro fuel cs n srest herr hbatch hcid
    cases srest with
    | nil =>
      simp [changeStreamNext, herr, hbatch, hcid, changeStreamResumeStep]
    | cons r rs =>
      cases r with
      | cursor id' fb pbrt' ot' =>
        cases fuel with
        | zero =>
          simp [changeStreamNext, herr, hbatch, hcid, changeStreamResumeStep]
        | succ f =>
          rw [changeStreamNext.eq_def]
          simp [herr, hbatch, hcid, changeStreamResumeStep]
      | err c2 m2 =>
        simp [changeStreamNext, herr, hbatch, hcid, changeStreamResumeStep]
      | hangup =>
        simp [changeStreamNext, herr, hbatch, hcid, changeStreamResumeStep]

/-- Witness for the C4 theorem at the first `_test_getmore_error` case:
`{'ok': 0, 'code': 1, 'errmsg': 'internal error'}` on cursor 124 —
`killCursors 124` is sent between the failed getMore and the resuming
aggregate. -/
theorem resume_killCursors_matches_class_witness :
    ((changeStreamNext 1 resumableTestStream
        (WireReply.err (some 1) "internal error"
          :: [WireReply.cursor 125
               [[("_id", BsonValue.document [("resume", BsonValue.string "doc")])]]
               none none])).trace).take 3
      = [WireCmd.getMore 124, WireCmd.killCursors 124,
         WireCmd.aggregate
           (resumeStageFields resumableTestStream.opts.fullDocument
             (resumeSelector resumableTestStream.rs))] :=
  resume_killCursors_matches_class.1 1 resumableTestStream 123 (some 1)
    "internal error"
    [WireReply.cursor 125
      [[("_id", BsonValue.document [("resume", BsonValue.string "doc")])]]
      none none]
    rfl rfl rfl (by decide)

/-- Claim C6. Whenever `next` pulls a buffered document whose `_id` field
is absent, or present but not document-typed, the stream enters the
errored state with the `NoResumeToken` error — whose message contains
"Cannot provide resume functionality" — `next` returns no document, and
no resume is attempted: no command at all is sent. -/
theorem missing_resume_token_fatal :
    (∀ (fuel : Nat) (cs : ChangeStream) (d : Bson) (rest : List Bson)
       (script : List WireReply),
      cs.err = none → cs.batch = d :: rest →
      bsonFind d "_id" = none →
      (changeStreamNext fuel cs script).doc = none ∧
      (changeStreamNext fuel cs script).stream.err = some noResumeTokenError ∧
      (changeStreamNext fuel cs script).trace = []) ∧
    (∀ (fuel : Nat) (cs : ChangeStream) (d : Bson) (rest : List Bson)
       (script : List WireReply) (v : BsonValue),
      cs.err = none → cs.batch = d :: rest →
      bsonFind d "_id" = some v → v.holdsDocument = false →
      (changeStreamNext fuel cs script).doc = none ∧
      (changeStreamNext fuel cs script).stream.err = some noResumeTokenError ∧
      (changeStreamNext fuel cs script).trace = []) ∧
    strContains noResumeTokenError.message "Cannot provide resume functionality"
      = true := by
  refine ⟨?_, ?_, rfl⟩
  · intro fuel cs d rest script herr hbatch hid
    refine ⟨?_, ?_, ?_⟩ <;>
      simp [changeStreamNext, herr, hbatch, deliverDoc, hid]
  · intro fuel cs d rest script v herr hbatch hid hnd
    cases v <;> simp_all [BsonValue.holdsDocument] <;>
      (refine ⟨?_, ?_, ?_⟩ <;>
        simp [changeStreamNext, herr, hbatch, deliverDoc, hid])

/-- Witness for the C6 theorem at a first-batch document with an
integer `_id` (the `$literal: 1` projection of
`test_change_stream_live_invalid_resume_token`). -/
theorem missing_resume_token_fatal_witness :
    (changeStreamNext 1
      { opts := defaultStreamOptions, rs := emptyResumeState,
        cursorId := 123, batch := [[("_id", BsonValue.int32 1)]], err := none }
      []).doc = none ∧
    (changeStreamNext 1
      { opts := defaultStreamOptions, rs := emptyResumeState,
        cursorId := 123, batch := [[("_id", BsonValue.int32 1)]], err := none }
      []).stream.err = some noResumeTokenError ∧
    (changeStreamNext 1
      { opts := defaultStreamOptions, rs := emptyResumeState,
        cursorId := 123, batch := [[("_id", BsonValue.int32 1)]], err := none }
      []).trace = [] :=
  missing_resume_token_fatal.2.1 1
    { opts := defaultStreamOptions, rs := emptyResumeState,
      cursorId := 123, batch := [[("_id", BsonValue.int32 1)]], err := none }
    [("_id", BsonValue.int32 1)] [] [] (BsonValue.int32 1) rfl rfl rfl rfl

/-- Claim C7. A `next` that returns no document leaves the resume state
unchanged: with a cursor id of zero nothing at all happens (no command,
same state), and with a live cursor answered by an empty batch, one
`getMore` is sent, no document is returned, no error is set, and
`get_resume_token` is the same before and after the call — whatever the
reply's `postBatchResumeToken` carries. -/
theorem empty_poll_preserves_token :
    (∀ (fuel : Nat) (cs : ChangeStream) (script : List WireReply),
      cs.err = none → cs.batch = [] → cs.cursorId = 0 →
      changeStreamNext fuel cs script = ⟨none, cs, script, []⟩) ∧
    (∀ (fuel : Nat) (cs : ChangeStream) (n id' : Nat)
       (pbrt' ot' : Option BsonValue) (rest : List WireReply),
      cs.err = none → cs.batch = [] → cs.cursorId = n + 1 →
      (changeStreamNext fuel cs
          (WireReply.cursor id' [] pbrt' ot' :: rest)).doc = none ∧
      getResumeToken (changeStreamNext fuel cs
          (WireReply.cursor id' [] pbrt' ot' :: rest)).stream
        = getResumeToken cs ∧
      (changeStreamNext fuel cs
          (WireReply.cursor id' [] pbrt' ot' :: rest)).stream.err = none ∧
      (changeStreamNext fuel cs
          (WireReply.cursor id' [] pbrt' ot' :: rest)).trace
        = [WireCmd.getMore (n + 1)]) := by
  constructor
  · intro fuel cs script herr hbatch hcid
    simp [changeStreamNext, herr, hbatch, hcid]
  · intro fuel cs n id' pbrt' ot' rest herr hbatch hcid
    refine ⟨?_, ?_, ?_, ?_⟩ <;>
      simp [changeStreamNext, herr, hbatch, hcid, getResumeToken]

/-- Witness for the C7 theorem: a live cursor (123) with a recorded
post-batch token polled with an empty reply that carries a different
post-batch token keeps its `get_resume_token`. -/
theorem empty_poll_preserves_token_witness :
    getResumeToken (changeStreamNext 1
        { opts := defaultStreamOptions,
          rs := { emptyResumeState with
            post_batch_token := some (BsonValue.document
              [("resume", BsonValue.string "pbr")]) },
          cursorId := 123, batch := [], err := none }
        [WireReply.cursor 123 []
          (some (BsonValue.document [("resume", BsonValue.string "other")]))
          none]).stream
      = getResumeToken
        { opts := defaultStreamOptions,
          rs := { emptyResumeState with
            post_batch_token := some (BsonValue.document
              [("resume", BsonValue.string "pbr")]) },
          cursorId := 123, batch := [], err := none } :=
  (empty_poll_preserves_token.2 1
    { opts := defaultStreamOptions,
      rs := { emptyResumeState with
        post_batch_token := some (BsonValue.document
          [("resume", BsonValue.string "pbr")]) },
      cursorId := 123, batch := [], err := none }
    122 123
    (some (BsonValue.document [("resume", BsonValue.string "other")]))
    none [] rfl rfl rfl).2.1

/-- Claim C8. The watch aggregate command's pipeline array has the
`$changeStream` stage first, followed by the user's stages in their
original order; the user pipeline is accepted equivalently as a
document with an array-valued `pipeline` field or as an array-shaped
document (any document without an array `pipeline` field contributes
its values in order), with the two forms of
`test_change_stream_accepts_array` building identical commands; and a
malformed non-document element (`42`) is kept in the forwarded pipeline
rather than rejected locally. -/
theorem watch_pipeline_forms :
    (∀ (ns : String) (opts : StreamOptions) (up : Bson) (aggOpts : Option Bson),
      (watchAggCmd ns opts up aggOpts).bind (fun cmd => bsonFind cmd "pipeline")
        = some (BsonValue.array
            (csStage (initialStageFields opts) :: pipelineStages up))) ∧
    (∀ stages : List BsonValue,
      pipelineStages [("pipeline", BsonValue.array stages)] = stages) ∧
    (∀ p : Bson, bsonFind p "pipeline" = none →
      pipelineStages p = p.map (fun kv => kv.2)) ∧
    (watchAggCmd "db.coll" defaultStreamOptions
        [("pipeline", BsonValue.array [matchStage, projectStage])] none
      = watchAggCmd "db.coll" defaultStreamOptions
        [("0", matchStage), ("1", projectStage)] none) ∧
    ((watchAggCmd "db.coll" defaultStreamOptions
        [("pipeline", BsonValue.array [BsonValue.int32 42])] none).bind
          (fun cmd => bsonFind cmd "pipeline")
      = some (BsonValue.array
          [csStage (initialStageFields defaultStreamOptions),
           BsonValue.int32 42])) := by
  refine ⟨?_, ?_, ?_, rfl, rfl⟩
  · intro ns opts up aggOpts
    unfold watchAggCmd
    rw [makeAggCmd_build]
    simp [bsonFind, pipelineStages]
  · intro stages
    simp [pipelineStages, bsonFind]
  · intro p h
    simp [pipelineStages, h]

/-- Witness for the C8 theorem at the array-shaped document of
`test_change_stream_accepts_array`. -/
theorem watch_pipeline_forms_witness :
    pipelineStages [("0", matchStage), ("1", projectStage)]
      = ([("0", matchStage), ("1", projectStage)] : Bson).map
          (fun kv => kv.2) :=
  watch_pipeline_forms.2.2.1 [("0", matchStage), ("1", projectStage)] rfl
